import Mathlib

/-!
Shallow embedding of `src/js/engine.js` (the game loop of the
frontend-nanodegree-arcade-game repository).

The engine reads a shared mutable `game` object and issues calls to the
canvas context and to entity collaborators.  We embed it as pure Lean
functions: each engine function takes the `GameState` it would read and
returns the `GameState` it leaves behind (the engine never assigns to
`game`, so faithfulness requires threading the state explicitly and
observing it is returned unchanged), together with the ordered trace of
external calls it issues (canvas draw operations, delegated entity
`update`/`render` calls).  A JavaScript runtime fault (indexing
`game.levels` out of range yields `undefined`, and reading `.enemies` or
calling `.render` on it throws a TypeError) is modelled by a `fault`
field: `some msg` means the call threw after issuing the recorded trace.

Entity collaborators are external, so an enemy is modelled by its
identity (a `String` tag) and a call to its `update`/`render` method by a
trace event carrying that identity; the engine mutates entities only
through such calls, hence an empty trace means no entity mutation.
-/

namespace Engine

/-- A selectable character entry on the start screen (`chr[i]` in the
source); the engine reads only its `sprite` identifier. -/
structure Character where
  sprite : String
  deriving DecidableEq, Repr

/-- The selector collaborator: a `render()` method (traced as an event)
and a readable `characters` ordered collection. -/
structure Selector where
  characters : List Character
  deriving DecidableEq, Repr

/-- The player collaborator; the engine reads its `sprite` identifier and
calls its `update()`/`render()` methods (traced as events). -/
structure Player where
  sprite : String
  deriving DecidableEq, Repr

/-- A level collaborator: a `render()` method (traced) and a readable
`enemies` ordered collection; each enemy is identified by a tag. -/
structure Level where
  enemies : List String
  deriving DecidableEq, Repr

/-- The shared `game` object as read by `engine.js`: the fields it
accesses are `state`, `lvl`, `lives`, `player`, `levels`, `selector`.
`lvl` and `lives` are JavaScript numbers used as integers. -/
structure GameState where
  state : String
  lvl : Int
  lives : Int
  player : Player
  levels : List Level
  selector : Selector
  deriving DecidableEq, Repr

/-- JavaScript array indexing `xs[i]`: yields the element when
`0 ≤ i < xs.length`, otherwise `undefined` (here `none`). -/
def jsIndex {α : Type} (xs : List α) (i : Int) : Option α :=
  if 0 ≤ i then xs.get? i.toNat else none

/-- One external call issued by `updateEntities`. -/
inductive UpdateEvent where
  /-- `enemy.update(dt)` on the enemy with the given identity. -/
  | enemyUpdate (enemy : String) (dt : Rat)
  /-- `game.player.update()` — note: no `dt` argument in the source. -/
  | playerUpdate
  deriving DecidableEq, Repr

/-- Result of an engine call that touches entities: the `game` object as
left behind, the ordered trace of external calls issued, and `some msg`
when the call threw a runtime error after issuing that trace. -/
structure UpdateResult where
  game : GameState
  events : List UpdateEvent
  fault : Option String
  deriving DecidableEq, Repr

/-- `updateEntities(dt)` from `engine.js` lines 94-101: when
`game.state === "game"`, iterates `game.levels[game.lvl].enemies` in
order calling `enemy.update(dt)` on each, then calls
`game.player.update()`; otherwise does nothing.  An out-of-range
`game.lvl` makes `game.levels[game.lvl]` `undefined` and the `.enemies`
read throws before any entity call. -/
def updateEntities (dt : Rat) (g : GameState) : UpdateResult :=
  if g.state = "game" then
    match jsIndex g.levels g.lvl with
    | none => ⟨g, [], some "TypeError: cannot read enemies of undefined"⟩
    | some lv =>
        ⟨g, lv.enemies.map (fun e => UpdateEvent.enemyUpdate e dt)
              ++ [UpdateEvent.playerUpdate], none⟩
  else ⟨g, [], none⟩

/-- `update(dt)` from `engine.js` lines 83-85: delegates to
`updateEntities(dt)`. -/
def update (dt : Rat) (g : GameState) : UpdateResult :=
  updateEntities dt g

/-- One canvas-context call or delegated entity render call issued by
`render()`. -/
inductive DrawOp where
  /-- `ctx.beginPath()` -/
  | beginPath
  /-- `ctx.rect(x, y, w, h)` -/
  | rect (x y w h : Int)
  /-- assignment `ctx.fillStyle = c` -/
  | setFillStyle (c : String)
  /-- `ctx.fill()` -/
  | fill
  /-- assignment `ctx.font = f` -/
  | setFont (f : String)
  /-- assignment `ctx.textAlign = a` -/
  | setTextAlign (a : String)
  /-- `ctx.fillText(s, x, y)` -/
  | fillText (s : String) (x y : Int)
  /-- `ctx.drawImage(Resources.get(sprite), x, y)` — the sprite
  identifier determines the drawable handle. -/
  | drawImage (sprite : String) (x y : Int)
  /-- delegated `game.levels[game.lvl].render()` -/
  | levelRender
  /-- delegated `enemy.render()` on the enemy with the given identity -/
  | enemyRender (enemy : String)
  /-- delegated `game.player.render()` -/
  | playerRender
  /-- delegated `game.selector.render()` -/
  | selectorRender
  deriving DecidableEq, Repr

/-- Result of a `render()` call: the `game` object as left behind, the
ordered trace of canvas and delegated render calls, and `some msg` when
the call threw after issuing that trace. -/
structure RenderResult where
  game : GameState
  ops : List DrawOp
  fault : Option String
  deriving DecidableEq, Repr

/-- `engine.js` lines 110-114: the unconditional background paint that
opens every `render()` call — `beginPath`, `rect(0, 0, 505, 606)`,
`fillStyle = 'white'`, `fill`, covering the full 505x606 canvas. -/
def backgroundOps : List DrawOp :=
  [DrawOp.beginPath, DrawOp.rect 0 0 505 606,
   DrawOp.setFillStyle "white", DrawOp.fill]

/-- The `case "game"` body of the render switch (`engine.js` lines
117-138), given the level object `lv = game.levels[game.lvl]`: level
render, each enemy render in order, player render, then the status text.
The source line 137 is `ctx.fillText("Level: " + game.lvl + 1, 375, 37)`:
JavaScript `+` associates left, so `"Level: " + game.lvl` is string
concatenation and the trailing `+ 1` appends the character `1`, not an
arithmetic increment. -/
def gameOps (g : GameState) (lv : Level) : List DrawOp :=
  [DrawOp.levelRender]
    ++ lv.enemies.map (fun e => DrawOp.enemyRender e)
    ++ [DrawOp.playerRender,
        DrawOp.setFont "bold 20pt Calibri",
        DrawOp.setTextAlign "center",
        DrawOp.setFillStyle "black",
        DrawOp.fillText ("Lives: " ++ toString g.lives) 125 37,
        DrawOp.fillText ("Level: " ++ toString g.lvl ++ toString (1 : Int)) 375 37]

/-- The character-drawing `for` loop of the `case "start"` body
(`engine.js` lines 145-149): with loop counter starting at `i`, draws
each remaining character sprite at `(i * 101 + 50, 3 * 83 - 20)`. -/
def drawChars : Int → List Character → List DrawOp
  | _, [] => []
  | i, c :: cs =>
      DrawOp.drawImage c.sprite (i * 101 + 50) (3 * 83 - 20) :: drawChars (i + 1) cs

/-- The `case "start"` body of the render switch (`engine.js` lines
140-159): selector render, the character sprite row, then the title and
instruction text. -/
def startOps (g : GameState) : List DrawOp :=
  [DrawOp.selectorRender]
    ++ drawChars 0 g.selector.characters
    ++ [DrawOp.setFont "bold 20pt Calibri",
        DrawOp.setTextAlign "center",
        DrawOp.setFillStyle "black",
        DrawOp.fillText "Select Your Heroine!" 252 100,
        DrawOp.setFont "bold 14pt Calibri",
        DrawOp.fillText "Press Space or Enter to Begin" 252 160]

/-- The `case "win"` body of the render switch (`engine.js` lines
161-172): three sprite draws — the player's sprite at `101+50`,
`images/char-boy.png` at `202+50`, `images/Heart.png` at `151+50`, all at
`3*83-20` — then the title and instruction text. -/
def winOps (g : GameState) : List DrawOp :=
  [DrawOp.drawImage g.player.sprite (101 + 50) (3 * 83 - 20),
   DrawOp.drawImage "images/char-boy.png" (202 + 50) (3 * 83 - 20),
   DrawOp.drawImage "images/Heart.png" (151 + 50) (3 * 83 - 20),
   DrawOp.setFont "bold 20pt Calibri",
   DrawOp.setTextAlign "center",
   DrawOp.setFillStyle "black",
   DrawOp.fillText "You Win!" 252 100,
   DrawOp.setFont "bold 14pt Calibri",
   DrawOp.fillText "Press Space or Enter to Restart" 252 160]

/-- The `case "over"` body of the render switch (`engine.js` lines
174-183): title and instruction text only, no sprites. -/
def overOps : List DrawOp :=
  [DrawOp.setFont "bold 20pt Calibri",
   DrawOp.setTextAlign "center",
   DrawOp.setFillStyle "black",
   DrawOp.fillText "Game Over!" 252 100,
   DrawOp.setFont "bold 14pt Calibri",
   DrawOp.fillText "Press Space or Enter to Restart" 252 160]

/-- `render()` from `engine.js` lines 109-185: paints the background,
then `switch (game.state)` dispatches to the per-state body; a state
matching no case falls through with no further drawing.  In the `game`
case an out-of-range `game.lvl` throws on line 118
(`game.levels[game.lvl].render()`) right after the background paint. -/
def render (g : GameState) : RenderResult :=
  if g.state = "game" then
    match jsIndex g.levels g.lvl with
    | none => ⟨g, backgroundOps, some "TypeError: cannot read render of undefined"⟩
    | some lv => ⟨g, backgroundOps ++ gameOps g lv, none⟩
  else if g.state = "start" then ⟨g, backgroundOps ++ startOps g, none⟩
  else if g.state = "win" then ⟨g, backgroundOps ++ winOps g, none⟩
  else if g.state = "over" then ⟨g, backgroundOps ++ overOps, none⟩
  else ⟨g, backgroundOps, none⟩

/-- The sprite draw calls of a trace: each `drawImage` op as
(sprite identifier, x, y), in trace order. -/
def drawImages (ops : List DrawOp) : List (String × Int × Int) :=
  ops.filterMap fun op =>
    match op with
    | DrawOp.drawImage s x y => some (s, x, y)
    | _ => none

/-- The text overlays of a trace: each `fillText` op's string, in trace
order. -/
def textsOf (ops : List DrawOp) : List String :=
  ops.filterMap fun op =>
    match op with
    | DrawOp.fillText s _ _ => some s
    | _ => none

/-- One step of the loop driver, as observed from outside. -/
inductive FrameEvent where
  /-- jQuery `$("#game-area").css("display", 'block')` -/
  | showGameArea
  /-- `game.resetGame()` -/
  | resetGame
  /-- `update(dt)` with the computed delta -/
  | updateCall (dt : Rat)
  /-- `render()` -/
  | renderCall
  /-- `win.requestAnimationFrame(main)` — schedules, does not run -/
  | requestFrame
  deriving DecidableEq, Repr

/-- `main()` from `engine.js` lines 36-61, one tick of the loop: given
the wall-clock sample `now = Date.now()` and the stored `lastTime`,
computes `dt = (now - lastTime) / 1000`, calls `update(dt)` then
`render()`, sets `lastTime = now`, and requests the next animation frame.
Returns the new `lastTime` and the trace of calls. -/
def main (now lastTime : Int) : Int × List FrameEvent :=
  let dt : Rat := (now - lastTime) / 1000
  (now, [FrameEvent.updateCall dt, FrameEvent.renderCall, FrameEvent.requestFrame])

/-- `init()` from `engine.js` lines 67-72: sets `lastTime` to the
wall-clock sample `t0 = Date.now()`, shows the game area, calls
`game.resetGame()`, then performs the first tick `main()`, whose own
`Date.now()` sample is `t1`.  Returns the `lastTime` left behind and the
trace of calls. -/
def init (t0 t1 : Int) : Int × List FrameEvent :=
  let m := main t1 t0
  (m.1, FrameEvent.showGameArea :: FrameEvent.resetGame :: m.2)

/-- Recognises an `updateCall` event. -/
def isUpdateCall : FrameEvent → Bool
  | FrameEvent.updateCall _ => true
  | _ => false

/-! Concrete game states used to instantiate the claim theorems. -/

/-- A concrete in-game state with `lvl = 2` and `lives = 3` and three
levels, used for claim C1. -/
def gC1 : GameState :=
  { state := "game", lvl := 2, lives := 3,
    player := ⟨"images/char-cat-girl.png"⟩,
    levels := [⟨["bugA"]⟩, ⟨["bugB"]⟩, ⟨["bugC", "bugD"]⟩],
    selector := ⟨[]⟩ }

/-- A concrete win-screen state, used for claim C2. -/
def gC2 : GameState :=
  { state := "win", lvl := 0, lives := 3,
    player := ⟨"images/char-pink-girl.png"⟩,
    levels := [], selector := ⟨[]⟩ }

/-- A concrete in-game state with two enemies, used for claim C3. -/
def gC3 : GameState :=
  { state := "game", lvl := 0, lives := 5,
    player := ⟨"images/char-boy.png"⟩,
    levels := [⟨["bugA", "bugB"]⟩],
    selector := ⟨[]⟩ }

/-- A concrete start-screen state, used for claim C4. -/
def gC4 : GameState :=
  { state := "start", lvl := 0, lives := 3,
    player := ⟨"images/char-boy.png"⟩,
    levels := [⟨["bugA"]⟩],
    selector := ⟨[⟨"images/char-boy.png"⟩]⟩ }

/-- A concrete start-screen state whose selector holds five characters,
used for claim C7. -/
def gC7 : GameState :=
  { state := "start", lvl := 0, lives := 3,
    player := ⟨"images/char-boy.png"⟩,
    levels := [],
    selector := ⟨[⟨"images/char-boy.png"⟩, ⟨"images/char-horn-girl.png"⟩,
                  ⟨"images/char-cat-girl.png"⟩, ⟨"images/char-pink-girl.png"⟩,
                  ⟨"images/char-princess-girl.png"⟩]⟩ }

/-- A concrete state whose `state` string matches no switch case, used
for claim C8. -/
def gC8 : GameState :=
  { state := "paused", lvl := 7, lives := 0,
    player := ⟨"images/char-boy.png"⟩,
    levels := [], selector := ⟨[]⟩ }

/-- A concrete in-game state with an in-range level index, used for
claim C10. -/
def gC10a : GameState :=
  { state := "game", lvl := 1, lives := 2,
    player := ⟨"images/char-boy.png"⟩,
    levels := [⟨["bugA"]⟩, ⟨["bugB"]⟩],
    selector := ⟨[]⟩ }

/-- A concrete game-over state with an out-of-range level index, used
for claim C10: outside the `game` state the index is never read. -/
def gC10b : GameState :=
  { state := "over", lvl := 99, lives := 0,
    player := ⟨"images/char-boy.png"⟩,
    levels := [], selector := ⟨[]⟩ }

/-! Claim theorems. -/

/-- Claim C1 (code-bug evidence): with state `game`, `lvl = 2`,
`lives = 3`, one `render()` call does draw the text "Lives: 3", but the
level overlay it draws is "Level: 21", not "Level: 3": source line 137
computes `"Level: " + game.lvl + 1` and JavaScript `+` associates left,
so the `+ 1` is string concatenation, not the intended 1-indexing
increment. -/
theorem render_game_level_text_concat :
    "Lives: 3" ∈ textsOf (render gC1).ops ∧
    "Level: 21" ∈ textsOf (render gC1).ops ∧
    "Level: 3" ∉ textsOf (render gC1).ops := by
  decide

/-- Claim C2 (counterexample): the claim places the three win-screen
sprites at horizontal offsets 151, 202 and 253, but on a win-state
`GameState` the engine issues a sprite draw at horizontal offset 252
(`202+50`, source line 163), which is none of 151, 202, 253. -/
theorem render_win_offsets_counterexample :
    (252 : Int) ∈ (drawImages (render gC2).ops).map (fun t => t.2.1) ∧
    (252 : Int) ∉ ([151, 202, 253] : List Int) := by
  decide

/-- Claim C2 (amended): for every `GameState` with state `win`, one
`render()` call draws exactly 3 sprites, at horizontal offsets 151
(`101+50`, the player's sprite), 252 (`202+50`, `images/char-boy.png`)
and 201 (`151+50`, `images/Heart.png`), all at vertical offset
`3*83-20 = 229`, independent of all `GameState` contents other than the
player's sprite identifier. -/
theorem render_win_sprites (g : GameState) (h : g.state = "win") :
    drawImages (render g).ops =
      [(g.player.sprite, 151, 229),
       ("images/char-boy.png", 252, 229),
       ("images/Heart.png", 201, 229)] := by
  simp [render, h, drawImages, backgroundOps, winOps]

/-- Claim C2 amended-theorem witness at the concrete win state. -/
theorem render_win_sprites_witness :
    drawImages (render gC2).ops =
      [("images/char-pink-girl.png", 151, 229),
       ("images/char-boy.png", 252, 229),
       ("images/Heart.png", 201, 229)] :=
  render_win_sprites gC2 rfl

/-- Claim C3: for every `dt` and every `GameState` with state `game`
whose level index resolves to a level `lv`, one `update(dt)` call issues
exactly the trace `enemy.update(dt)` for each enemy of `lv.enemies`, in
collection order, each with the same `dt`, followed by exactly one
`player.update()` call (which takes no `dt`), and leaves the game state
unchanged. -/
theorem update_game_trace (dt : Rat) (g : GameState) (lv : Level)
    (h : g.state = "game") (hlv : jsIndex g.levels g.lvl = some lv) :
    update dt g =
      ⟨g, lv.enemies.map (fun e => UpdateEvent.enemyUpdate e dt)
            ++ [UpdateEvent.playerUpdate], none⟩ := by
  simp [update, updateEntities, h, hlv]

/-- Claim C3 witness: with two enemies and `dt = 2`, the trace is the
two enemy updates in order, then the player update. -/
theorem update_game_trace_witness :
    update 2 gC3 =
      ⟨gC3, [UpdateEvent.enemyUpdate "bugA" 2, UpdateEvent.enemyUpdate "bugB" 2,
             UpdateEvent.playerUpdate], none⟩ :=
  update_game_trace 2 gC3 ⟨["bugA", "bugB"]⟩ rfl (by decide)

/-- Claim C4: for every `dt ≥ 0` and every `GameState` with state other
than `game`, one `update(dt)` call issues no entity call at all and
leaves the game state unchanged — a no-op. -/
theorem update_noop_outside_game (dt : Rat) (g : GameState)
    (hdt : 0 ≤ dt) (h : g.state ≠ "game") :
    update dt g = ⟨g, [], none⟩ := by
  simp [update, updateEntities, h]

/-- Claim C4 witness at the start-screen state with `dt = 0`. -/
theorem update_noop_outside_game_witness :
    update 0 gC4 = ⟨gC4, [], none⟩ :=
  update_noop_outside_game 0 gC4 (le_refl 0) (by decide)

/-- Claim C5: `init()` samples the wall clock at `t0`, and its embedded
first tick (`main()`, the tick `init` performs) samples it at `t1`;
provided the clock did not run backwards (`t0 ≤ t1`), afterwards the
stored `lastTime` is at least the `init`-time sample `t0`, and the trace
holds exactly one `update` call and exactly one `render` call. -/
theorem init_first_tick (t0 t1 : Int) (h : t0 ≤ t1) :
    t0 ≤ (init t0 t1).1 ∧
    (init t0 t1).2.countP isUpdateCall = 1 ∧
    (init t0 t1).2.count FrameEvent.renderCall = 1 := by
  refine ⟨?_, ?_, ?_⟩
  · simpa [init, main] using h
  · rfl
  · rfl

/-- Claim C5 witness with `t0 = 100`, `t1 = 116`. -/
theorem init_first_tick_witness :
    100 ≤ (init 100 116).1 ∧
    (init 100 116).2.countP isUpdateCall = 1 ∧
    (init 100 116).2.count FrameEvent.renderCall = 1 :=
  init_first_tick 100 116 (by decide)

/-- Claim C6: for every `GameState` — whatever its `state` string, known
or unknown — the trace of one `render()` call begins with the four
background-paint operations (`beginPath`, `rect(0,0,505,606)`,
`fillStyle = 'white'`, `fill`), which cover the full 505x606 canvas,
before any state-dependent drawing. -/
theorem render_background_first (g : GameState) :
    ∃ rest, (render g).ops = backgroundOps ++ rest := by
  by_cases h1 : g.state = "game"
  · rcases hlv : jsIndex g.levels g.lvl with _ | lv
    · exact ⟨[], by simp [render, h1, hlv]⟩
    · exact ⟨gameOps g lv, by simp [render, h1, hlv]⟩
  · by_cases h2 : g.state = "start"
    · exact ⟨startOps g, by simp [render, h1, h2]⟩
    · by_cases h3 : g.state = "win"
      · exact ⟨winOps g, by simp [render, h1, h2, h3]⟩
      · by_cases h4 : g.state = "over"
        · exact ⟨overOps, by simp [render, h1, h2, h3, h4]⟩
        · exact ⟨[], by simp [render, h1, h2, h3, h4]⟩

/-- The character loop draws one sprite per character: its trace has the
same length as the character list. -/
theorem drawChars_length (i : Int) (cs : List Character) :
    (drawChars i cs).length = cs.length := by
  induction cs generalizing i with
  | nil => rfl
  | cons c cs ih => simp [drawChars, ih]

/-- Every operation the character loop issues is a sprite draw, and the
`j`-th one draws the `j`-th character's sprite at
`((i + j) * 101 + 50, 3 * 83 - 20)` when the loop counter starts at
`i`. -/
theorem drawImages_drawChars (i : Int) (cs : List Character) (j : Nat) :
    (drawImages (drawChars i cs)).get? j =
      (cs.get? j).map (fun c => (c.sprite, (i + j) * 101 + 50, (3 * 83 - 20 : Int))) := by
  induction cs generalizing i j with
  | nil => simp [drawChars, drawImages]
  | cons c cs ih =>
    cases j with
    | zero => simp [drawChars, drawImages]
    | succ j =>
      have := ih (i + 1) j
      simp only [drawChars, drawImages, List.filterMap_cons, List.get?] at this ⊢
      rw [this]
      have harith : i + 1 + (j : Int) = i + ((j : Nat) + 1 : Nat) := by push_cast; ring
      rw [harith]

/-- `drawImages` ignores everything but `drawImage` operations and
distributes over concatenation. -/
theorem drawImages_append (a b : List DrawOp) :
    drawImages (a ++ b) = drawImages a ++ drawImages b := by
  simp [drawImages, List.filterMap_append]

/-- The sprite draws of a start-state render trace are exactly those of
the character loop. -/
theorem drawImages_render_start (g : GameState) (h : g.state = "start") :
    drawImages (render g).ops = drawImages (drawChars 0 g.selector.characters) := by
  have : (render g).ops = backgroundOps ++ startOps g := by
    simp [render, h]
  rw [this, startOps, drawImages_append, drawImages_append, drawImages_append]
  simp [drawImages, backgroundOps]

/-- Claim C7: for every `GameState` with state `start` whose selector
holds a 5-entry character list, one `render()` call issues exactly 5
sprite draw calls, the `j`-th drawing the `j`-th character's sprite at
horizontal offset `j * 101 + 50` and vertical offset `3 * 83 - 20`. -/
theorem render_start_sprites (g : GameState)
    (h : g.state = "start") (h5 : g.selector.characters.length = 5) :
    (drawImages (render g).ops).length = 5 ∧
    ∀ j : Nat, j < 5 →
      (drawImages (render g).ops).get? j =
        (g.selector.characters.get? j).map
          (fun c => (c.sprite, (j : Int) * 101 + 50, (3 * 83 - 20 : Int))) := by
  rw [drawImages_render_start g h]
  constructor
  · have hlen : ∀ cs : List Character, ∀ i : Int,
        (drawImages (drawChars i cs)).length = cs.length := by
      intro cs
      induction cs with
      | nil => intro i; rfl
      | cons c cs ih =>
        intro i
        have hcons : drawImages (drawChars i (c :: cs)) =
            (c.sprite, i * 101 + 50, (3 * 83 - 20 : Int))
              :: drawImages (drawChars (i + 1) cs) := by
          simp [drawChars, drawImages, List.filterMap_cons]
        rw [hcons, List.length_cons, ih, List.length_cons]
    rw [hlen, h5]
  · intro j _
    rw [drawImages_drawChars 0 g.selector.characters j]
    simp

/-- Claim C7 witness: at the concrete 5-character start state, the
render trace has exactly 5 sprite draws and the third (index 2) draws
that character's sprite at `(2 * 101 + 50, 3 * 83 - 20) = (252, 229)`. -/
theorem render_start_sprites_witness :
    (drawImages (render gC7).ops).length = 5 ∧
    (drawImages (render gC7).ops).get? 2 =
      some ("images/char-cat-girl.png", 252, 229) := by
  refine ⟨(render_start_sprites gC7 rfl rfl).1, ?_⟩
  have := (render_start_sprites gC7 rfl rfl).2 2 (by decide)
  rw [this]
  decide

/-- Claim C8: for every `GameState` whose state is none of `start`,
`game`, `win`, `over`, one `render()` call issues the background paint
and nothing else, leaves the game state unchanged and does not fault:
the switch dispatch falls through as a no-op. -/
theorem render_unknown_state (g : GameState)
    (h1 : g.state ≠ "start") (h2 : g.state ≠ "game")
    (h3 : g.state ≠ "win") (h4 : g.state ≠ "over") :
    render g = ⟨g, backgroundOps, none⟩ := by
  simp [render, h1, h2, h3, h4]

/-- Claim C8 witness at the concrete state tagged `paused`. -/
theorem render_unknown_state_witness :
    render gC8 = ⟨gC8, backgroundOps, none⟩ :=
  render_unknown_state gC8 (by decide) (by decide) (by decide) (by decide)

/-- Claim C9: for every `GameState`, one `render()` call returns the
game state it was given — it modifies no field (`state`, `lvl`, `lives`,
`player`, `levels`, `selector`); in particular it never transitions the
state value. -/
theorem render_readonly (g : GameState) : (render g).game = g := by
  by_cases h1 : g.state = "game"
  · rcases hlv : jsIndex g.levels g.lvl with _ | lv <;> simp [render, h1, hlv]
  · by_cases h2 : g.state = "start"
    · simp [render, h1, h2]
    · by_cases h3 : g.state = "win"
      · simp [render, h1, h2, h3]
      · by_cases h4 : g.state = "over"
        · simp [render, h1, h2, h3, h4]
        · simp [render, h1, h2, h3, h4]

/-- An in-range integer index (`0 ≤ i < xs.length`) resolves under
JavaScript indexing. -/
theorem jsIndex_isSome {α : Type} (xs : List α) (i : Int)
    (h0 : 0 ≤ i) (h1 : i < xs.length) : ∃ x, jsIndex xs i = some x := by
  have hlt : i.toNat < xs.length := by omega
  exact ⟨xs.get ⟨i.toNat, hlt⟩, by simp [jsIndex, h0, List.get?_eq_get hlt]⟩

/-- Claim C10: in the `game` state both `update(dt)` and `render()`
index `game.levels` at `game.lvl`, and under `0 ≤ lvl < levels.length`
neither call faults (the out-of-range error branch is unreachable);
outside the `game` state neither call performs the indexing, so neither
faults whatever `lvl` holds. -/
theorem level_index_safety (dt : Rat) (g : GameState) :
    (g.state = "game" → 0 ≤ g.lvl → g.lvl < g.levels.length →
      (update dt g).fault = none ∧ (render g).fault = none) ∧
    (g.state ≠ "game" →
      (update dt g).fault = none ∧ (render g).fault = none) := by
  constructor
  · intro h h0 h1
    obtain ⟨lv, hlv⟩ := jsIndex_isSome g.levels g.lvl h0 h1
    constructor
    · simp [update, updateEntities, h, hlv]
    · simp [render, h, hlv]
  · intro h
    constructor
    · simp [update, updateEntities, h]
    · by_cases h2 : g.state = "start"
      · simp [render, h, h2]
      · by_cases h3 : g.state = "win"
        · simp [render, h, h2, h3]
        · by_cases h4 : g.state = "over"
          · simp [render, h, h2, h3, h4]
          · simp [render, h, h2, h3, h4]

/-- Claim C10 witness: with an in-range index in the `game` state and an
out-of-range index in the `over` state, neither `update` nor `render`
faults. -/
theorem level_index_safety_witness :
    ((update 1 gC10a).fault = none ∧ (render gC10a).fault = none) ∧
    ((update 1 gC10b).fault = none ∧ (render gC10b).fault = none) :=
  ⟨(level_index_safety 1 gC10a).1 rfl (by decide) (by decide),
   (level_index_safety 1 gC10b).2 (by decide)⟩

end Engine
